import Mathlib

/-!
Verification of the F1 strategy QA framework core: a shallow embedding of
the scenario validator (`src/validators/input_validator.py`), the rule-based
strategy agent (`src/rag/agent.py`), the numerical feature extractor of the
scenario embedder (`src/rag/embeddings.py`), the distance-to-similarity
transform of the vector database (`src/rag/vectordb.py`) and the LLM response
validation of the RAG engine (`src/rag/engine.py` / `engine_v2.py`).

Python dictionaries are embedded as structures with `Option` fields (a `none`
field models an absent key).  Python numbers are embedded as `Int` where the
code only ever sees integers (laps, tire age) and as `Rat` where fractional
values occur (gaps, confidences, features).  Python string lowercasing is
modelled character-wise (all strings involved are ASCII).
-/

/-- Check that the first list is an initial segment of the second,
comparing characters (models Python string matching at the start). -/
def leadsWith : List Char → List Char → Bool
  | [], _ => true
  | _ :: _, [] => false
  | a :: as, b :: bs => a == b && leadsWith as bs

/-- Check that `pat` occurs as a contiguous run inside `l`
(models the Python `in` operator on strings). -/
def strContainsAux (pat : List Char) : List Char → Bool
  | [] => pat.isEmpty
  | c :: rest => leadsWith pat (c :: rest) || strContainsAux pat rest

/-- `strContains s pat` models Python `pat in s` for strings. -/
def strContains (s pat : String) : Bool := strContainsAux pat.data s.data

/-- Models Python `str.lower()` (character-wise; ASCII inputs only). -/
def pyLower (s : String) : String := ⟨s.data.map Char.toLower⟩

theorem leadsWith_append {a b l : List Char} (h : leadsWith (a ++ b) l = true) :
    leadsWith a l = true := by
  induction a generalizing l with
  | nil => rfl
  | cons x xs ih =>
      cases l with
      | nil => simp [leadsWith] at h
      | cons y ys =>
          simp only [List.cons_append, leadsWith, Bool.and_eq_true] at h ⊢
          exact ⟨h.1, ih h.2⟩

theorem strContainsAux_append_left {a b l : List Char}
    (h : strContainsAux (a ++ b) l = true) :
    strContainsAux a l = true := by
  induction l with
  | nil =>
      simp only [strContainsAux, List.isEmpty_iff, List.append_eq_nil] at h ⊢
      exact h.1
  | cons c rest ih =>
      simp only [strContainsAux, Bool.or_eq_true] at h ⊢
      rcases h with h | h
      · exact Or.inl (leadsWith_append h)
      · exact Or.inr (ih h)

/-- Containing a longer pattern implies containing an initial run of it:
used to pass from `"heavy_rain" in s` to `"heavy" in s`. -/
theorem strContains_of_strContains_append (s : String) (a b : List Char)
    (h : strContainsAux (a ++ b) s.data = true) :
    strContainsAux a s.data = true :=
  strContainsAux_append_left h

/-! ## Data model: race scenarios as Python-style records -/

/-- The `position` value of a scenario: the code accepts both a plain
integer and a dict of the shape `\x7b"current": n, ...\x7d`. -/
inductive PyPosition where
  | asInt (n : Int)
  | asDict (current : Option Int)
deriving Repr, DecidableEq

/-- The `tires` sub-dictionary of a scenario. -/
structure Tires where
  compound : Option String
  age_laps : Option Int
  condition : Option String
deriving Repr, DecidableEq

/-- The `weather` sub-dictionary of a scenario. -/
structure Weather where
  condition : Option String
deriving Repr, DecidableEq

/-- The `gaps` sub-dictionary of a scenario (gap seconds to ranked cars). -/
structure Gaps where
  to_p1 : Option Rat
  to_p2 : Option Rat
  to_p3 : Option Rat
  to_p4 : Option Rat
  to_p5 : Option Rat
  to_p6 : Option Rat
deriving Repr, DecidableEq

/-- A race scenario dictionary; `none` models an absent key. -/
structure Scenario where
  lap : Option Int
  tires : Option Tires
  weather : Option Weather
  gaps : Option Gaps
  race_state : Option String
  position : Option PyPosition
deriving Repr, DecidableEq

def emptyTires : Tires := ⟨none, none, none⟩
def emptyWeather : Weather := ⟨none⟩
def emptyGaps : Gaps := ⟨none, none, none, none, none, none⟩

/-- The scenario dictionary with no keys at all (the Python empty dict). -/
def emptyScenario : Scenario := ⟨none, none, none, none, none, none⟩

/-! ## Scenario validator (`src/validators/input_validator.py`) -/

def VALID_COMPOUNDS : List String := ["SOFT", "MEDIUM", "HARD", "INTERMEDIATE", "WET"]

/-- `InputValidator.validate_scenario`: collects errors, every check is
conditional on the corresponding key being present. -/
def validate_scenario (s : Scenario) : Bool × List String :=
  let tireErrors :=
    match s.tires with
    | none => []
    | some t =>
      let compoundErrors :=
        match t.compound with
        | some c =>
            if c ≠ "" ∧ c ∉ VALID_COMPOUNDS then
              ["Invalid tire compound: " ++ c]
            else []
        | none => []
      let ageErrors :=
        match t.age_laps with
        | some a =>
            if a < 0 then ["Tire age cannot be negative: " ++ toString a]
            else if 100 < a then
              ["Tire age (" ++ toString a ++ " laps) exceeds maximum realistic age (100 laps)"]
            else []
        | none => []
      compoundErrors ++ ageErrors
  let lapErrors :=
    match s.lap with
    | none => []
    | some l =>
        if l < 1 then ["Lap number must be positive: " ++ toString l]
        else if 80 < l then
          ["Lap " ++ toString l ++ " exceeds maximum race distance (80)"]
        else []
  let errors := tireErrors ++ lapErrors
  (errors.isEmpty, errors)

/-- `InputValidator.validate_weather_tire_compatibility`. -/
def validate_weather_tire_compatibility (tire_compound weather_condition : String) :
    Bool × String :=
  let condition_lower := pyLower weather_condition
  if tire_compound ∈ ["SOFT", "MEDIUM", "HARD"] ∧
      (strContains condition_lower "heavy_rain" ∨ strContains condition_lower "rain" ∨
        strContains condition_lower "wet") then
    (false, "DANGER: Slick tires (" ++ tire_compound ++ ") in " ++ weather_condition ++
      " conditions. Must change to INTERMEDIATE or WET.")
  else if tire_compound ∈ ["INTERMEDIATE", "WET"] ∧ strContains condition_lower "dry" then
    (false, (if tire_compound = "WET" then "CRITICAL" else "WARNING") ++ ": " ++
      tire_compound ++ " tires will overheat on dry track. Must change to slick compound.")
  else
    (true, "")

/-! ## Rule-based strategy agent (`src/rag/agent.py`) -/

/-- Python-style raised errors of the agent path. -/
inductive PyError where
  | keyError (key : String)
  | scenarioValidationError (msg : String)
deriving Repr, DecidableEq

/-- The strategy recommendation record the agent returns. -/
structure StrategyResult where
  decision : String
  compound : String
  rationale : String
  confidence_score : Rat
  risk_level : String
  model_version : String
  warning : Option String
deriving Repr, DecidableEq

def modelVersion : String := "v0.3.2-sc-vsc-final-laps"

/-- Python `x or y` on a number already defaulted for a missing key:
zero (and a missing key, via the default) falls through to the next choice. -/
def pyOr (x : Rat) (rest : Rat) : Rat := if x = 0 then rest else x

/-- Gap ahead as read by the agent rule 0B: `to_p1 or to_p2 or to_p3 or 0`. -/
def gapAheadAgent (g : Gaps) : Rat :=
  pyOr (g.to_p1.getD 0) (pyOr (g.to_p2.getD 0) (pyOr (g.to_p3.getD 0) 0))

/-- Gap behind as read by the agent rule 0B: `to_p4 or to_p5 or to_p6 or 0`. -/
def gapBehindAgent (g : Gaps) : Rat :=
  pyOr (g.to_p4.getD 0) (pyOr (g.to_p5.getD 0) (pyOr (g.to_p6.getD 0) 0))

/-- Rule 0B trigger: gaps key present, `40 < lap < 58`, both gaps above 14s. -/
def freePitWindow (s : Scenario) (lap : Int) : Bool :=
  match s.gaps with
  | none => false
  | some g =>
      decide (40 < lap) && decide (lap < 58) &&
      decide ((14 : Rat) < gapAheadAgent g) && decide ((14 : Rat) < gapBehindAgent g)

/-- Rule 5 trigger: gaps key present and `gaps.get("to_p4", 0) > 10`. -/
def safeGapToP4 (s : Scenario) : Bool :=
  match s.gaps with
  | none => false
  | some g => decide ((10 : Rat) < g.to_p4.getD 0)

/-- `F1StrategyAgent._is_weather_changing`. -/
def is_weather_changing (w : Weather) : Bool :=
  let condition := pyLower (w.condition.getD "")
  strContains condition "changing" || strContains condition "mixed" ||
    strContains condition "drizzle" || strContains condition "damp"

/-- `F1StrategyAgent._make_decision`: the ordered rule table.  The inner
Python condition of the final-laps rule (`tire_age < 30 or tire_age >= 30`)
is a tautology and is embedded as the plain outer branch. -/
def make_decision (lap tire_age : Int) (tire_compound : String) (weather : Weather)
    (s : Scenario) : String × String × Rat × String :=
  if 58 ≤ lap then
    ("STAY_OUT",
      "Final laps of race (L" ++ toString lap ++
        "). Position priority over tire condition. No time to benefit from pit stop.",
      85 / 100, "MEDIUM")
  else
    let race_state := pyLower (s.race_state.getD "")
    if (strContains race_state "safety" ∨ strContains race_state "sc") ∧ 15 ≤ tire_age then
      ("BOX",
        "Safety Car/VSC opportunity. " ++ tire_compound ++ " at " ++ toString tire_age ++
          " laps ready for change. Pit time loss negated.",
        90 / 100, "LOW")
    else if freePitWindow s lap then
      ("BOX",
        "Free pit stop opportunity. Position secured with large gaps ahead and behind. " ++
          "Attack fastest lap point with fresh tires.",
        90 / 100, "LOW")
    else if tire_age = 0 then
      ("STAY_OUT",
        "Fresh " ++ tire_compound ++
          " tires optimal for opening stint. Track position critical at race start.",
        90 / 100, "LOW")
    else if 30 ≤ tire_age then
      ("BOX",
        tire_compound ++ " tires at " ++ toString tire_age ++
          " laps - past optimal window. Degradation critical.",
        85 / 100, "MEDIUM")
    else if is_weather_changing weather then
      ("BOX",
        "Weather changing to " ++ weather.condition.getD "" ++
          ". Tire compound change required.",
        80 / 100, "MEDIUM")
    else if 10 ≤ tire_age ∧ tire_age ≤ 25 then
      ("STAY_OUT",
        tire_compound ++ " tires at " ++ toString tire_age ++
          " laps - within optimal window. Maintain strategy.",
        75 / 100, "LOW")
    else if 26 ≤ tire_age ∧ tire_age ≤ 29 then
      if safeGapToP4 s then
        ("BOX",
          tire_compound ++ " approaching end of optimal window. Safe gap allows pit stop.",
          70 / 100, "MEDIUM")
      else
        ("STAY_OUT",
          tire_compound ++ " near end of window but no safe gap to pit. Extend stint.",
          65 / 100, "MEDIUM")
    else
      ("STAY_OUT",
        "Standard strategy for " ++ tire_compound ++ " at " ++ toString tire_age ++ " laps.",
        70 / 100, "MEDIUM")

/-- `F1StrategyAgent._handle_dangerous_situation`. -/
def handle_dangerous_situation (current_compound weather_condition warning : String) :
    StrategyResult :=
  if current_compound ∈ ["SOFT", "MEDIUM", "HARD"] then
    let recommended_compound :=
      if strContains (pyLower weather_condition) "heavy" then "WET" else "INTERMEDIATE"
    { decision := "BOX", compound := recommended_compound,
      rationale := warning ++ " Immediate tire change required for safety.",
      confidence_score := 98 / 100, risk_level := "HIGH",
      model_version := modelVersion, warning := some warning }
  else if current_compound ∈ ["INTERMEDIATE", "WET"] then
    { decision := "BOX", compound := "MEDIUM",
      rationale := warning ++ " Tire overheating risk. Change to slicks.",
      confidence_score := 95 / 100, risk_level := "MEDIUM",
      model_version := modelVersion, warning := some warning }
  else
    { decision := "BOX", compound := "MEDIUM", rationale := warning,
      confidence_score := 50 / 100, risk_level := "HIGH",
      model_version := modelVersion, warning := none }

/-- `F1StrategyAgent.generate_strategy`: validation, then the unconditional
dictionary reads `scenario["lap"]`, `scenario["tires"]`,
`tires["age_laps"]`, `tires["compound"]`, `scenario["weather"]` (each a
`KeyError` when absent), then the compatibility override or the rule table. -/
def generate_strategy (s : Scenario) : Except PyError StrategyResult :=
  let v := validate_scenario s
  if v.1 = false then
    .error (.scenarioValidationError
      ("Invalid scenario data:\n" ++ String.intercalate "\n" (v.2.map (fun e => "  - " ++ e))))
  else
    match s.lap with
    | none => .error (.keyError "lap")
    | some lap =>
      match s.tires with
      | none => .error (.keyError "tires")
      | some tires =>
        match tires.age_laps with
        | none => .error (.keyError "age_laps")
        | some tire_age =>
          match tires.compound with
          | none => .error (.keyError "compound")
          | some tire_compound =>
            match s.weather with
            | none => .error (.keyError "weather")
            | some weather =>
              let weather_condition := weather.condition.getD "unknown"
              let compat := validate_weather_tire_compatibility tire_compound weather_condition
              if compat.1 = true then
                let d := make_decision lap tire_age tire_compound weather s
                .ok { decision := d.1, compound := tire_compound, rationale := d.2.1,
                      confidence_score := d.2.2.1, risk_level := d.2.2.2,
                      model_version := modelVersion, warning := none }
              else
                .ok (handle_dangerous_situation tire_compound weather_condition compat.2)

/-- Decision field of an agent outcome, when the call returned normally. -/
def decisionOf : Except PyError StrategyResult → Option String
  | .ok r => some r.decision
  | .error _ => none

/-! ## Numerical feature extraction (`src/rag/embeddings.py`) -/

/-- `ScenarioEmbedder.COMPOUND_ENCODING.get(compound, 1)`. -/
def COMPOUND_ENCODING (c : String) : Rat :=
  if c = "SOFT" then 0
  else if c = "MEDIUM" then 1
  else if c = "HARD" then 2
  else if c = "INTERMEDIATE" then 3
  else if c = "WET" then 4
  else 1

/-- `ScenarioEmbedder.WEATHER_ENCODING.get(condition, 0)`. -/
def WEATHER_ENCODING (c : String) : Rat :=
  if c = "dry" then 0
  else if c = "damp" then 1
  else if c = "drizzle" then 2
  else if c = "light_rain" then 3
  else if c = "rain" then 4
  else if c = "heavy_rain" then 5
  else if c = "wet" then 6
  else 0

/-- Tire condition severity map, unknown condition defaults to 0.4. -/
def conditionSeverity (c : String) : Rat :=
  if c = "optimal" then 0
  else if c = "good" then 2 / 10
  else if c = "mid_stint" then 4 / 10
  else if c = "end_of_optimal_window" then 6 / 10
  else if c = "high_wear" then 8 / 10
  else if c = "critical_wear" then 1
  else 4 / 10

/-- Virtual-safety-car flag computed by the embedder on the lowercased
race state (computed first; order matters). -/
def embVSC (race_state : String) : Rat :=
  if race_state = "virtual_safety_car" ∨ race_state = "vsc" then 1
  else if strContains race_state "virtual" ∧ strContains race_state "safety" then 1
  else 0

/-- Full-safety-car flag computed by the embedder on the lowercased race
state; only checked when the VSC flag stayed 0. -/
def embSC (race_state : String) : Rat :=
  if embVSC race_state = 0 then
    if race_state = "safety_car" ∨ race_state = "sc" then 1
    else if strContains race_state "safety" ∧ strContains race_state "car" ∧
        ¬ strContains race_state "virtual" then 1
    else 0
  else 0

/-- Position value used for feature 3: a dict form is unwrapped through its
`current` entry (default 10), and a missing position also defaults to 10. -/
def positionScalar : Option PyPosition → Int
  | none => 10
  | some (.asInt n) => n
  | some (.asDict c) => c.getD 10

/-- `ScenarioEmbedder.extract_numerical_features`: the 11 numerical features
in order.  Note the gap-ahead chain reads `to_p2` before `to_p1` and the
gap-behind chain reads only `to_p4` and `to_p5`, exactly as the code does. -/
def extract_numerical_features (s : Scenario) : List Rat :=
  let tires := s.tires.getD emptyTires
  let tire_age : Int := tires.age_laps.getD 0
  let f0 := min ((tire_age : Rat) / 50) 1
  let f1 := COMPOUND_ENCODING (tires.compound.getD "MEDIUM") / 4
  let lap : Int := s.lap.getD 0
  let f2 := min ((lap : Rat) / 70) 1
  let f3 := min ((positionScalar s.position : Rat) / 20) 1
  let g := s.gaps.getD emptyGaps
  let gap_ahead := pyOr (g.to_p2.getD 0) (pyOr (g.to_p1.getD 0) (pyOr (g.to_p3.getD 0) 0))
  let gap_behind := pyOr (g.to_p4.getD 0) (pyOr (g.to_p5.getD 0) 0)
  let f4 := min (gap_ahead / 60) 1
  let f5 := min (gap_behind / 60) 1
  let f6 := WEATHER_ENCODING (pyLower ((s.weather.getD emptyWeather).condition.getD "dry")) / 6
  let f7 : Rat := if 0 < lap then (if lap < 15 then 0 else if lap < 50 then 1 / 2 else 1) else 0
  let race_state := pyLower (s.race_state.getD "")
  let f8 := embSC race_state
  let f9 := embVSC race_state
  let f10 := conditionSeverity (pyLower (tires.condition.getD "optimal"))
  [f0, f1, f2, f3, f4, f5, f6, f7, f8, f9, f10]

/-- The gap-ahead feature as claim C5 words it: first non-empty of
`to_p1`, `to_p2`, `to_p3` in that order, divided by 60 and capped at 1. -/
def specGapAhead (g : Gaps) : Rat :=
  min (pyOr (g.to_p1.getD 0) (pyOr (g.to_p2.getD 0) (pyOr (g.to_p3.getD 0) 0)) / 60) 1

/-- The gap-behind feature as claim C5 words it: first non-empty of
`to_p4`, `to_p5`, `to_p6` in that order, divided by 60 and capped at 1. -/
def specGapBehind (g : Gaps) : Rat :=
  min (pyOr (g.to_p4.getD 0) (pyOr (g.to_p5.getD 0) (pyOr (g.to_p6.getD 0) 0)) / 60) 1

/-- The gap-ahead feature the code actually computes: first non-zero of
`to_p2`, `to_p1`, `to_p3` in that order, divided by 60 and capped at 1. -/
def specGapAheadFixed (g : Gaps) : Rat :=
  min (pyOr (g.to_p2.getD 0) (pyOr (g.to_p1.getD 0) (pyOr (g.to_p3.getD 0) 0)) / 60) 1

/-- The gap-behind feature the code actually computes: first non-zero of
`to_p4`, `to_p5` (never `to_p6`), divided by 60 and capped at 1. -/
def specGapBehindFixed (g : Gaps) : Rat :=
  min (pyOr (g.to_p4.getD 0) (pyOr (g.to_p5.getD 0) 0) / 60) 1

/-- Nonnegativity of the value-bearing inputs the features divide by a
domain maximum (read through the same defaults the code applies). -/
def nonnegativeInputs (s : Scenario) : Prop :=
  0 ≤ (s.tires.getD emptyTires).age_laps.getD 0 ∧
  0 ≤ s.lap.getD 0 ∧
  0 ≤ positionScalar s.position ∧
  0 ≤ (s.gaps.getD emptyGaps).to_p1.getD 0 ∧
  0 ≤ (s.gaps.getD emptyGaps).to_p2.getD 0 ∧
  0 ≤ (s.gaps.getD emptyGaps).to_p3.getD 0 ∧
  0 ≤ (s.gaps.getD emptyGaps).to_p4.getD 0 ∧
  0 ≤ (s.gaps.getD emptyGaps).to_p5.getD 0

instance (s : Scenario) : Decidable (nonnegativeInputs s) := by
  unfold nonnegativeInputs; infer_instance

/-! ## Distance-to-similarity transform (`src/rag/vectordb.py`) -/

/-- The transform `VectorDatabase.search` applies to the distance the store
reports for each result: `similarity = 1 - distance / 2`. -/
def distance_to_similarity (distance : Rat) : Rat := 1 - distance / 2

/-! ## LLM response validation (`src/rag/engine.py`, `src/rag/engine_v2.py`)

The regular-expression extraction of a JSON object from the raw response
text and the JSON decoding (both via the Python standard library) are
modelled by their outcome: either no brace-delimited candidate was found,
or the candidate failed to decode, or it decoded to a JSON object (a
brace-delimited candidate that decodes successfully is an object).  The
field validation that follows is embedded in full. -/

/-- A decoded JSON value. -/
inductive JVal where
  | str (s : String)
  | num (q : Rat)
  | boolean (b : Bool)
  | null
  | obj (fields : List (String × JVal))
  | arr (elems : List JVal)

/-- Outcome of the extraction and JSON-decoding stage of
`parse_llm_response` (keys of a decoded object are distinct). -/
inductive ExtractOutcome where
  | noJsonFound (snippet : String)
  | invalidJson (msg : String)
  | parsedObj (fields : List (String × JVal))

/-- Python dict lookup on a decoded JSON object. -/
def jLookup : List (String × JVal) → String → Option JVal
  | [], _ => none
  | (k, v) :: rest, key => if k = key then some v else jLookup rest key

/-- Python `parsed[field] == target` for a string target. -/
def jIsStr (v : Option JVal) (target : String) : Bool :=
  match v with
  | some (.str t) => t = target
  | _ => false

/-- The numeric value Python arithmetic comparison sees for the
`confidence` entry (a JSON boolean is an int in Python); `none` when the
comparison would raise a `TypeError`. -/
def confValue : Option JVal → Option Rat
  | some (.num q) => some q
  | some (.boolean b) => some (if b then 1 else 0)
  | _ => none

/-- Python `0.0 <= parsed["confidence"] <= 1.0`, with a raising comparison
counted as failure. -/
def confInRange (v : Option JVal) : Bool :=
  match confValue v with
  | some q => decide (0 ≤ q ∧ q ≤ 1)
  | none => false

/-- `F1StrategyRAG.parse_llm_response` (identical in `engine.py` and
`engine_v2.py`): the error cases of the extraction stage, then the field
checks in code order, otherwise the parsed object is returned unchanged. -/
def parse_llm_response : ExtractOutcome → Except String (List (String × JVal))
  | .noJsonFound snippet =>
      .error ("Could not extract JSON from response: " ++ snippet)
  | .invalidJson msg => .error ("Invalid JSON in response: " ++ msg)
  | .parsedObj parsed =>
      if (jLookup parsed "decision").isNone then .error "Missing required field: decision"
      else if (jLookup parsed "confidence").isNone then
        .error "Missing required field: confidence"
      else if (jLookup parsed "reasoning").isNone then
        .error "Missing required field: reasoning"
      else if (jLookup parsed "risk_level").isNone then
        .error "Missing required field: risk_level"
      else if ¬ (jIsStr (jLookup parsed "decision") "BOX" ∨
          jIsStr (jLookup parsed "decision") "STAY_OUT") then
        .error "Invalid decision"
      else if ¬ confInRange (jLookup parsed "confidence") then
        .error "Invalid confidence"
      else if ¬ (jIsStr (jLookup parsed "risk_level") "LOW" ∨
          jIsStr (jLookup parsed "risk_level") "MEDIUM" ∨
          jIsStr (jLookup parsed "risk_level") "HIGH") then
        .error "Invalid risk level"
      else .ok parsed

/-- The validity condition claim C8 words for a parsed response object:
all four fields present, decision and risk level in their enumerations,
confidence in range. -/
def responseMeetsContract (fields : List (String × JVal)) : Bool :=
  (jLookup fields "decision").isSome &&
  (jLookup fields "confidence").isSome &&
  (jLookup fields "reasoning").isSome &&
  (jLookup fields "risk_level").isSome &&
  (jIsStr (jLookup fields "decision") "BOX" || jIsStr (jLookup fields "decision") "STAY_OUT") &&
  confInRange (jLookup fields "confidence") &&
  (jIsStr (jLookup fields "risk_level") "LOW" || jIsStr (jLookup fields "risk_level") "MEDIUM" ||
    jIsStr (jLookup fields "risk_level") "HIGH")

/-! ## Claim theorems -/

/-- Containing `"heavy_rain"` implies containing `"heavy"`. -/
theorem strContains_heavy {s : String} (h : strContains s "heavy_rain" = true) :
    strContains s "heavy" = true := by
  have hsplit : ("heavy_rain" : String).data = ("heavy" : String).data ++ ("_rain" : String).data := by
    decide
  unfold strContains at h ⊢
  rw [hsplit] at h
  exact strContainsAux_append_left h

/-- C10: the empty scenario dictionary passes validation with no errors,
yet `generate_strategy` on it fails with a `KeyError` on `"lap"` (not a
`ScenarioValidationError`). -/
theorem C10_empty_scenario_keyError :
    validate_scenario emptyScenario = (true, []) ∧
    generate_strategy emptyScenario = .error (.keyError "lap") :=
  ⟨rfl, rfl⟩

/-- C2: for every scenario that passes validation, carries the lap, tires
and weather fields, has a weather-compatible tire compound and has lap ≥ 58,
the rule engine returns STAY_OUT with confidence exactly 0.85 and risk
MEDIUM, regardless of tire age. -/
theorem C2_final_laps_stay_out (s : Scenario) (lap tire_age : Int) (t : Tires)
    (cmp : String) (w : Weather)
    (hlap : s.lap = some lap) (ht : s.tires = some t) (hage : t.age_laps = some tire_age)
    (hcmp : t.compound = some cmp) (hw : s.weather = some w)
    (hvalid : (validate_scenario s).1 = true)
    (hcompat : (validate_weather_tire_compatibility cmp (w.condition.getD "unknown")).1 = true)
    (h58 : 58 ≤ lap) :
    ∃ r, generate_strategy s = .ok r ∧ r.decision = "STAY_OUT" ∧
      r.confidence_score = 85 / 100 ∧ r.risk_level = "MEDIUM" := by
  have hgen : generate_strategy s =
      .ok { decision := (make_decision lap tire_age cmp w s).1,
            compound := cmp,
            rationale := (make_decision lap tire_age cmp w s).2.1,
            confidence_score := (make_decision lap tire_age cmp w s).2.2.1,
            risk_level := (make_decision lap tire_age cmp w s).2.2.2,
            model_version := modelVersion, warning := none } := by
    simp [generate_strategy, hlap, ht, hage, hcmp, hw, hvalid, hcompat]
  have hd : (make_decision lap tire_age cmp w s).1 = "STAY_OUT" ∧
      (make_decision lap tire_age cmp w s).2.2.1 = 85 / 100 ∧
      (make_decision lap tire_age cmp w s).2.2.2 = "MEDIUM" := by
    unfold make_decision
    rw [if_pos h58]
    exact ⟨rfl, rfl, rfl⟩
  exact ⟨_, hgen, hd.1, hd.2.1, hd.2.2⟩

/-- C2 witness: the end-to-end example of the spec, lap 62 on 35-lap-old
HARD tires in dry racing conditions. -/
theorem C2_final_laps_stay_out_witness :
    ∃ r, generate_strategy
        ⟨some 62, some ⟨some "HARD", some 35, none⟩, some ⟨some "dry"⟩,
          none, some "racing", none⟩ = .ok r ∧
      r.decision = "STAY_OUT" ∧ r.confidence_score = 85 / 100 ∧ r.risk_level = "MEDIUM" :=
  C2_final_laps_stay_out _ 62 35 _ "HARD" _ rfl rfl rfl rfl rfl (by decide) (by decide)
    (by decide)

/-- C1: for every scenario that passes validation, carries the lap, tires
and weather fields, has a slick compound and whose (lowercased) weather
condition contains "heavy_rain", the rule engine short-circuits into the
dangerous-situation override and returns BOX with recommended compound WET,
confidence 0.98 ≥ 0.95 and risk HIGH; no later rule is consulted. -/
theorem C1_heavy_rain_override (s : Scenario) (lap tire_age : Int) (t : Tires)
    (cmp : String) (w : Weather)
    (hlap : s.lap = some lap) (ht : s.tires = some t) (hage : t.age_laps = some tire_age)
    (hcmp : t.compound = some cmp) (hw : s.weather = some w)
    (hvalid : (validate_scenario s).1 = true)
    (hslick : cmp ∈ ["SOFT", "MEDIUM", "HARD"])
    (hrain : strContains (pyLower (w.condition.getD "unknown")) "heavy_rain" = true) :
    generate_strategy s =
      .ok (handle_dangerous_situation cmp (w.condition.getD "unknown")
        (validate_weather_tire_compatibility cmp (w.condition.getD "unknown")).2) ∧
    ∃ r, generate_strategy s = .ok r ∧ r.decision = "BOX" ∧ r.compound = "WET" ∧
      95 / 100 ≤ r.confidence_score ∧ r.risk_level = "HIGH" := by
  have hcompat : (validate_weather_tire_compatibility cmp (w.condition.getD "unknown")).1
      = false := by
    unfold validate_weather_tire_compatibility
    rw [if_pos ⟨hslick, Or.inl hrain⟩]
  have hgen : generate_strategy s =
      .ok (handle_dangerous_situation cmp (w.condition.getD "unknown")
        (validate_weather_tire_compatibility cmp (w.condition.getD "unknown")).2) := by
    simp [generate_strategy, hlap, ht, hage, hcmp, hw, hvalid, hcompat]
  have hheavy : strContains (pyLower (w.condition.getD "unknown")) "heavy" = true :=
    strContains_heavy hrain
  have hhandle : handle_dangerous_situation cmp (w.condition.getD "unknown")
      (validate_weather_tire_compatibility cmp (w.condition.getD "unknown")).2 =
      { decision := "BOX", compound := "WET",
        rationale := (validate_weather_tire_compatibility cmp (w.condition.getD "unknown")).2 ++
          " Immediate tire change required for safety.",
        confidence_score := 98 / 100, risk_level := "HIGH",
        model_version := modelVersion,
        warning := some (validate_weather_tire_compatibility cmp
          (w.condition.getD "unknown")).2 } := by
    unfold handle_dangerous_situation
    rw [if_pos hslick, if_pos hheavy]
  exact ⟨hgen, _, hgen.trans (congrArg _ hhandle), rfl, rfl, by norm_num, rfl⟩

/-- C1 witness: SOFT slicks at lap 30 in "heavy_rain" weather. -/
theorem C1_heavy_rain_override_witness :
    generate_strategy
        ⟨some 30, some ⟨some "SOFT", some 12, none⟩, some ⟨some "heavy_rain"⟩,
          none, none, none⟩ =
      .ok (handle_dangerous_situation "SOFT" "heavy_rain"
        (validate_weather_tire_compatibility "SOFT" "heavy_rain").2) ∧
    ∃ r, generate_strategy
        ⟨some 30, some ⟨some "SOFT", some 12, none⟩, some ⟨some "heavy_rain"⟩,
          none, none, none⟩ = .ok r ∧
      r.decision = "BOX" ∧ r.compound = "WET" ∧ 95 / 100 ≤ r.confidence_score ∧
      r.risk_level = "HIGH" :=
  C1_heavy_rain_override
    ⟨some 30, some ⟨some "SOFT", some 12, none⟩, some ⟨some "heavy_rain"⟩, none, none, none⟩
    30 12 ⟨some "SOFT", some 12, none⟩ "SOFT" ⟨some "heavy_rain"⟩
    rfl rfl rfl rfl rfl (by decide) (by decide) (by decide)

/-- C4: for every scenario that passes validation, carries the lap, tires
and weather fields, has a weather-compatible compound, tire age ≥ 30 and
lap < 58, the rule engine returns BOX (whichever of the safety-car,
free-pit-window or expired-tire rules fires first). -/
theorem C4_expired_tire_box (s : Scenario) (lap tire_age : Int) (t : Tires)
    (cmp : String) (w : Weather)
    (hlap : s.lap = some lap) (ht : s.tires = some t) (hage : t.age_laps = some tire_age)
    (hcmp : t.compound = some cmp) (hw : s.weather = some w)
    (hvalid : (validate_scenario s).1 = true)
    (hcompat : (validate_weather_tire_compatibility cmp (w.condition.getD "unknown")).1 = true)
    (h30 : 30 ≤ tire_age) (h58 : lap < 58) :
    ∃ r, generate_strategy s = .ok r ∧ r.decision = "BOX" := by
  have hgen : generate_strategy s =
      .ok { decision := (make_decision lap tire_age cmp w s).1,
            compound := cmp,
            rationale := (make_decision lap tire_age cmp w s).2.1,
            confidence_score := (make_decision lap tire_age cmp w s).2.2.1,
            risk_level := (make_decision lap tire_age cmp w s).2.2.2,
            model_version := modelVersion, warning := none } := by
    simp [generate_strategy, hlap, ht, hage, hcmp, hw, hvalid, hcompat]
  have hd : (make_decision lap tire_age cmp w s).1 = "BOX" := by
    simp only [make_decision]
    rw [if_neg (show ¬ (58 ≤ lap) by omega)]
    split_ifs <;> first | rfl | omega
  exact ⟨_, hgen, hd⟩

/-- C4 witness: HARD tires 32 laps old at lap 45 in dry racing conditions. -/
theorem C4_expired_tire_box_witness :
    ∃ r, generate_strategy
        ⟨some 45, some ⟨some "HARD", some 32, none⟩, some ⟨some "dry"⟩,
          none, some "racing", none⟩ = .ok r ∧ r.decision = "BOX" :=
  C4_expired_tire_box _ 45 32 _ "HARD" _ rfl rfl rfl rfl rfl (by decide) (by decide)
    (by decide) (by decide)

/-- The scenario refuting claim C3: fresh tires (age 0) at lap 45 with both
gaps above 14 seconds, dry weather, normal racing. -/
def freshTireFreePitScenario : Scenario :=
  ⟨some 45, some ⟨some "MEDIUM", some 0, none⟩, some ⟨some "dry"⟩,
    some ⟨some 20, none, none, some 20, none, none⟩, some "racing", none⟩

/-- C3 counterexample: a validated scenario with tire age 0 on which the
rule engine returns BOX (the free-pit-window rule fires before the
fresh-tire rule), refuting the claim that tire age 0 universally yields
STAY_OUT with no further precondition on lap or gaps. -/
theorem C3_fresh_tires_counterexample :
    (validate_scenario freshTireFreePitScenario).1 = true ∧
    (freshTireFreePitScenario.tires.getD emptyTires).age_laps = some 0 ∧
    decisionOf (generate_strategy freshTireFreePitScenario) = some "BOX" ∧
    some "BOX" ≠ some "STAY_OUT" := by
  refine ⟨by decide, rfl, ?_, by decide⟩
  decide

/-- C3 amended: for every scenario that passes validation, carries the lap,
tires and weather fields, has a weather-compatible compound and tire age 0,
and on which the free-pit-window rule does not fire (no gaps key with
40 < lap < 58 and both gaps above 14s), the rule engine returns STAY_OUT
with confidence ≥ 0.85. -/
theorem C3_fresh_tires_amended (s : Scenario) (lap tire_age : Int) (t : Tires)
    (cmp : String) (w : Weather)
    (hlap : s.lap = some lap) (ht : s.tires = some t) (hage : t.age_laps = some tire_age)
    (hcmp : t.compound = some cmp) (hw : s.weather = some w)
    (hvalid : (validate_scenario s).1 = true)
    (hcompat : (validate_weather_tire_compatibility cmp (w.condition.getD "unknown")).1 = true)
    (hage0 : tire_age = 0)
    (hfree : freePitWindow s lap = false) :
    ∃ r, generate_strategy s = .ok r ∧ r.decision = "STAY_OUT" ∧
      85 / 100 ≤ r.confidence_score := by
  have hgen : generate_strategy s =
      .ok { decision := (make_decision lap tire_age cmp w s).1,
            compound := cmp,
            rationale := (make_decision lap tire_age cmp w s).2.1,
            confidence_score := (make_decision lap tire_age cmp w s).2.2.1,
            risk_level := (make_decision lap tire_age cmp w s).2.2.2,
            model_version := modelVersion, warning := none } := by
    simp [generate_strategy, hlap, ht, hage, hcmp, hw, hvalid, hcompat]
  have hd : (make_decision lap tire_age cmp w s).1 = "STAY_OUT" ∧
      85 / 100 ≤ (make_decision lap tire_age cmp w s).2.2.1 := by
    simp only [make_decision]
    split_ifs with h1 h2 h3 <;>
      first
        | exact ⟨rfl, by norm_num⟩
        | omega
        | (exact absurd h3 (by rw [hfree]; exact Bool.false_ne_true))
  exact ⟨_, hgen, hd.1, hd.2⟩

/-- C3 amended witness: fresh MEDIUM tires at lap 1 in dry weather (the
spec's own end-to-end example). -/
theorem C3_fresh_tires_amended_witness :
    ∃ r, generate_strategy
        ⟨some 1, some ⟨some "MEDIUM", some 0, none⟩, some ⟨some "dry"⟩,
          none, none, none⟩ = .ok r ∧
      r.decision = "STAY_OUT" ∧ 85 / 100 ≤ r.confidence_score :=
  C3_fresh_tires_amended
    ⟨some 1, some ⟨some "MEDIUM", some 0, none⟩, some ⟨some "dry"⟩, none, none, none⟩
    1 0 ⟨some "MEDIUM", some 0, none⟩ "MEDIUM" ⟨some "dry"⟩
    rfl rfl rfl rfl rfl (by decide) (by decide) rfl (by decide)

/-- Scenario with both `to_p1` and `to_p2` present (and different). -/
def gapOrderScenario : Scenario :=
  ⟨none, none, none, some ⟨some 10, some 20, none, none, none, none⟩, none, none⟩

/-- Scenario whose only gap entry is `to_p6`. -/
def gapP6Scenario : Scenario :=
  ⟨none, none, none, some ⟨none, none, none, none, none, some 30⟩, none, none⟩

/-- C5 counterexample: with to_p1 = 10 and to_p2 = 20 the code produces
feature 4 = 20/60 (it reads to_p2 first) while the claimed order gives
10/60; with only to_p6 = 30 the code produces feature 5 = 0 (it never
reads to_p6) while the claimed chain gives 30/60. -/
theorem C5_gap_features_counterexample :
    (extract_numerical_features gapOrderScenario).getD 4 0 = 1 / 3 ∧
    specGapAhead ⟨some 10, some 20, none, none, none, none⟩ = 1 / 6 ∧
    ((1 : Rat) / 3 ≠ 1 / 6) ∧
    (extract_numerical_features gapP6Scenario).getD 5 0 = 0 ∧
    specGapBehind ⟨none, none, none, none, none, some 30⟩ = 1 / 2 ∧
    ((0 : Rat) ≠ 1 / 2) := by
  refine ⟨?_, ?_, by norm_num, ?_, ?_, by norm_num⟩ <;>
    norm_num [extract_numerical_features, specGapAhead, specGapBehind, pyOr,
      gapOrderScenario, gapP6Scenario, emptyGaps, emptyTires, emptyWeather,
      List.getD_cons_succ, List.getD_cons_zero]

/-- C5 amended: feature 4 equals the first non-zero value among to_p2,
to_p1, to_p3 — in that order — divided by 60 and capped at 1.0, and
feature 5 equals the first non-zero value among to_p4, to_p5 only (to_p6
is never consulted), divided by 60 and capped at 1.0; missing or zero
gaps yield 0. -/
theorem C5_gap_features_amended (s : Scenario) :
    (extract_numerical_features s).getD 4 0 = specGapAheadFixed (s.gaps.getD emptyGaps) ∧
    (extract_numerical_features s).getD 5 0 = specGapBehindFixed (s.gaps.getD emptyGaps) :=
  ⟨rfl, rfl⟩

/-- Characterisation of the embedder VSC flag. -/
theorem embVSC_eq_one_iff (rs : String) :
    embVSC rs = 1 ↔ (rs = "virtual_safety_car" ∨ rs = "vsc" ∨
      (strContains rs "virtual" = true ∧ strContains rs "safety" = true)) := by
  unfold embVSC
  split_ifs with h1 h2
  · exact iff_of_true rfl (by tauto)
  · exact iff_of_true rfl (by tauto)
  · refine iff_of_false (by norm_num) ?_
    push_neg at h1
    tauto

/-- The embedder VSC flag is 0 or 1. -/
theorem embVSC_zero_or_one (rs : String) : embVSC rs = 0 ∨ embVSC rs = 1 := by
  unfold embVSC
  split_ifs <;> simp

/-- The embedder full-SC flag is 0 or 1. -/
theorem embSC_zero_or_one (rs : String) : embSC rs = 0 ∨ embSC rs = 1 := by
  unfold embSC
  split_ifs <;> simp

/-- When the full-SC flag is set, the VSC flag is clear. -/
theorem embSC_one_imp_embVSC_zero (rs : String) (h : embSC rs = 1) : embVSC rs = 0 := by
  unfold embSC at h
  split_ifs at h with h0 <;> first | exact h0 | exact absurd h (by norm_num)

/-- One more embSC fact: when the race state contains both "virtual" and
"safety", the full-SC flag stays 0. -/
theorem embSC_zero_of_virtual_safety (rs : String)
    (h : strContains rs "virtual" = true ∧ strContains rs "safety" = true) :
    embSC rs = 0 := by
  have hv : embVSC rs = 1 := (embVSC_eq_one_iff rs).mpr (Or.inr (Or.inr h))
  unfold embSC
  rw [if_neg (by rw [hv]; norm_num)]

/-- C6: for every scenario, the VSC feature (index 9) is 1 iff the
lowercased race state equals "virtual_safety_car" or "vsc" or contains both
"virtual" and "safety"; the full-SC feature (index 8) is 1 only when the
VSC feature is 0; the two are never both 1; and a race state containing
both "virtual" and "safety" sets only the VSC feature. -/
theorem C6_safety_car_flags (s : Scenario) :
    ((extract_numerical_features s).getD 9 0 = 1 ↔
      (pyLower (s.race_state.getD "") = "virtual_safety_car" ∨
       pyLower (s.race_state.getD "") = "vsc" ∨
       (strContains (pyLower (s.race_state.getD "")) "virtual" = true ∧
        strContains (pyLower (s.race_state.getD "")) "safety" = true))) ∧
    ((extract_numerical_features s).getD 8 0 = 1 →
      (extract_numerical_features s).getD 9 0 = 0) ∧
    (¬ ((extract_numerical_features s).getD 8 0 = 1 ∧
        (extract_numerical_features s).getD 9 0 = 1)) ∧
    ((strContains (pyLower (s.race_state.getD "")) "virtual" = true ∧
      strContains (pyLower (s.race_state.getD "")) "safety" = true) →
      (extract_numerical_features s).getD 9 0 = 1 ∧
      (extract_numerical_features s).getD 8 0 = 0) := by
  have h8 : (extract_numerical_features s).getD 8 0 = embSC (pyLower (s.race_state.getD "")) :=
    rfl
  have h9 : (extract_numerical_features s).getD 9 0 = embVSC (pyLower (s.race_state.getD "")) :=
    rfl
  rw [h8, h9]
  refine ⟨embVSC_eq_one_iff _, embSC_one_imp_embVSC_zero _, ?_, ?_⟩
  · rintro ⟨hsc, hvsc⟩
    have := embSC_one_imp_embVSC_zero _ hsc
    rw [this] at hvsc
    norm_num at hvsc
  · intro h
    exact ⟨(embVSC_eq_one_iff _).mpr (Or.inr (Or.inr h)), embSC_zero_of_virtual_safety _ h⟩

/-- C6 witness: a race state string containing both "virtual" and "safety"
("virtual safety car deployed") classifies as VSC only. -/
theorem C6_safety_car_flags_witness :
    (extract_numerical_features
        ⟨none, none, none, none, some "virtual safety car deployed", none⟩).getD 9 0 = 1 ∧
    (extract_numerical_features
        ⟨none, none, none, none, some "virtual safety car deployed", none⟩).getD 8 0 = 0 :=
  (C6_safety_car_flags ⟨none, none, none, none, some "virtual safety car deployed", none⟩).2.2.2
    (by decide)

/-- A nonnegative value divided by a positive maximum and capped at 1
lies in the unit interval. -/
theorem minDiv_bounds {q c : Rat} (hq : 0 ≤ q) (hc : 0 < c) :
    0 ≤ min (q / c) 1 ∧ min (q / c) 1 ≤ 1 :=
  ⟨le_min (div_nonneg hq hc.le) zero_le_one, min_le_right _ _⟩

/-- The Python `or` chain preserves nonnegativity. -/
theorem pyOr_nonneg {x r : Rat} (hx : 0 ≤ x) (hr : 0 ≤ r) : 0 ≤ pyOr x r := by
  unfold pyOr
  split_ifs <;> assumption

theorem COMPOUND_ENCODING_div_bounds (c : String) :
    0 ≤ COMPOUND_ENCODING c / 4 ∧ COMPOUND_ENCODING c / 4 ≤ 1 := by
  unfold COMPOUND_ENCODING
  split_ifs <;> norm_num

theorem WEATHER_ENCODING_div_bounds (c : String) :
    0 ≤ WEATHER_ENCODING c / 6 ∧ WEATHER_ENCODING c / 6 ≤ 1 := by
  unfold WEATHER_ENCODING
  split_ifs <;> norm_num

theorem conditionSeverity_bounds (c : String) :
    0 ≤ conditionSeverity c ∧ conditionSeverity c ≤ 1 := by
  unfold conditionSeverity
  split_ifs <;> norm_num

theorem embVSC_bounds (rs : String) : 0 ≤ embVSC rs ∧ embVSC rs ≤ 1 := by
  rcases embVSC_zero_or_one rs with h | h <;> rw [h] <;> norm_num

theorem embSC_bounds (rs : String) : 0 ≤ embSC rs ∧ embSC rs ≤ 1 := by
  rcases embSC_zero_or_one rs with h | h <;> rw [h] <;> norm_num

/-- Scenario with a negative tire age (claim C7 explicitly ranges over such
dictionaries: the extractor is applied to arbitrary dicts). -/
def negativeAgeScenario : Scenario :=
  ⟨none, some ⟨none, some (-5), none⟩, none, none, none, none⟩

/-- C7 counterexample: with tire age -5 the first feature is
min(-5/50, 1.0) = -0.1, which is not in [0,1]; the division is capped
above at 1.0 but never floored at 0. -/
theorem C7_feature_range_counterexample :
    (extract_numerical_features negativeAgeScenario).length = 11 ∧
    (extract_numerical_features negativeAgeScenario).getD 0 0 = -1 / 10 ∧
    ¬ (0 ≤ (extract_numerical_features negativeAgeScenario).getD 0 0) := by
  refine ⟨rfl, ?_, ?_⟩ <;>
    norm_num [extract_numerical_features, negativeAgeScenario, emptyTires,
      List.getD_cons_zero]

/-- C7 amended: the extractor always returns exactly 11 features, and when
the value-bearing inputs (tire age, lap, position, gap values) are
nonnegative, every feature lies in [0,1]. -/
theorem C7_feature_range_amended (s : Scenario) :
    (extract_numerical_features s).length = 11 ∧
    (nonnegativeInputs s → ∀ x ∈ extract_numerical_features s, 0 ≤ x ∧ x ≤ 1) := by
  refine ⟨rfl, ?_⟩
  intro hn x hx
  obtain ⟨ha, hl, hp, h1, h2, h3, h4, h5⟩ := hn
  simp only [extract_numerical_features, List.mem_cons, List.not_mem_nil, or_false] at hx
  rcases hx with rfl | rfl | rfl | rfl | rfl | rfl | rfl | rfl | rfl | rfl | rfl
  · exact minDiv_bounds (by exact_mod_cast ha) (by norm_num)
  · exact COMPOUND_ENCODING_div_bounds _
  · exact minDiv_bounds (by exact_mod_cast hl) (by norm_num)
  · exact minDiv_bounds (by exact_mod_cast hp) (by norm_num)
  · exact minDiv_bounds (pyOr_nonneg h2 (pyOr_nonneg h1 (pyOr_nonneg h3 le_rfl))) (by norm_num)
  · exact minDiv_bounds (pyOr_nonneg h4 (pyOr_nonneg h5 le_rfl)) (by norm_num)
  · exact WEATHER_ENCODING_div_bounds _
  · split_ifs <;> norm_num
  · exact embSC_bounds _
  · exact embVSC_bounds _
  · exact conditionSeverity_bounds _

/-- C7 amended witness: a fully populated, nonnegative scenario. -/
theorem C7_feature_range_amended_witness :
    nonnegativeInputs
      ⟨some 30, some ⟨some "SOFT", some 10, some "good"⟩, some ⟨some "dry"⟩,
        some ⟨some 5, none, none, some 3, none, none⟩, some "racing", some (.asInt 4)⟩ ∧
    ∀ x ∈ extract_numerical_features
      ⟨some 30, some ⟨some "SOFT", some 10, some "good"⟩, some ⟨some "dry"⟩,
        some ⟨some 5, none, none, some 3, none, none⟩, some "racing", some (.asInt 4)⟩,
      0 ≤ x ∧ x ≤ 1 :=
  ⟨by decide,
    (C7_feature_range_amended
      ⟨some 30, some ⟨some "SOFT", some 10, some "good"⟩, some ⟨some "dry"⟩,
        some ⟨some 5, none, none, some 3, none, none⟩, some "racing", some (.asInt 4)⟩).2
      (by decide)⟩

/-- C9 counterexample: the nonnegative distance 4 is mapped to similarity
1 - 4/2 = -1, outside [0,1], refuting the claim that the transform stays
bounded to [0,1] for every possible nonnegative distance. -/
theorem C9_similarity_counterexample :
    (0 : Rat) ≤ 4 ∧ distance_to_similarity 4 = -1 ∧ distance_to_similarity 4 < 0 := by
  norm_num [distance_to_similarity]

/-- C9 amended: the transform 1 - d/2 is monotonically decreasing, equals 1
at distance 0, stays ≤ 1 for every nonnegative distance, but is ≥ 0 (and
hence within [0,1]) exactly for distances ≤ 2. -/
theorem C9_similarity_amended (d d₁ d₂ : Rat) (hd : 0 ≤ d) (h12 : d₁ ≤ d₂) :
    distance_to_similarity 0 = 1 ∧
    distance_to_similarity d₂ ≤ distance_to_similarity d₁ ∧
    distance_to_similarity d ≤ 1 ∧
    (0 ≤ distance_to_similarity d ↔ d ≤ 2) := by
  unfold distance_to_similarity
  refine ⟨by norm_num, by linarith, by linarith, ?_, ?_⟩ <;> intro h <;> linarith

/-- C9 amended witness at distance 1 (and the pair 1 ≤ 3). -/
theorem C9_similarity_amended_witness :
    (0 : Rat) ≤ 1 ∧ (1 : Rat) ≤ 3 ∧
    (distance_to_similarity 0 = 1 ∧
     distance_to_similarity 3 ≤ distance_to_similarity 1 ∧
     distance_to_similarity 1 ≤ 1 ∧
     (0 ≤ distance_to_similarity 1 ↔ (1 : Rat) ≤ 2)) :=
  ⟨by norm_num, by norm_num, C9_similarity_amended 1 1 3 (by norm_num) (by norm_num)⟩

/-- Unfolding of the response contract into its seven conditions. -/
theorem responseMeetsContract_true_iff (f : List (String × JVal)) :
    responseMeetsContract f = true ↔
      (¬ (jLookup f "decision").isNone = true ∧ ¬ (jLookup f "confidence").isNone = true ∧
       ¬ (jLookup f "reasoning").isNone = true ∧ ¬ (jLookup f "risk_level").isNone = true ∧
       (jIsStr (jLookup f "decision") "BOX" = true ∨
        jIsStr (jLookup f "decision") "STAY_OUT" = true) ∧
       confInRange (jLookup f "confidence") = true ∧
       (jIsStr (jLookup f "risk_level") "LOW" = true ∨
        jIsStr (jLookup f "risk_level") "MEDIUM" = true ∨
        jIsStr (jLookup f "risk_level") "HIGH" = true)) := by
  unfold responseMeetsContract
  simp only [Bool.and_eq_true, Bool.or_eq_true, Option.isSome_iff_ne_none,
    Option.isNone_iff_eq_none]
  tauto

/-- `parse_llm_response` on a decoded object succeeds exactly when the
contract holds, and then returns the object unchanged. -/
theorem parse_ok_iff (f g : List (String × JVal)) :
    parse_llm_response (.parsedObj f) = .ok g ↔
      (g = f ∧ responseMeetsContract f = true) := by
  show (if (jLookup f "decision").isNone then _ else _) = Except.ok g ↔ _
  by_cases h1 : (jLookup f "decision").isNone = true
  · rw [if_pos h1]
    refine iff_of_false (by simp) ?_
    rintro ⟨rfl, hc⟩
    exact ((responseMeetsContract_true_iff _).mp hc).1 h1
  rw [if_neg h1]
  by_cases h2 : (jLookup f "confidence").isNone = true
  · rw [if_pos h2]
    refine iff_of_false (by simp) ?_
    rintro ⟨rfl, hc⟩
    exact ((responseMeetsContract_true_iff _).mp hc).2.1 h2
  rw [if_neg h2]
  by_cases h3 : (jLookup f "reasoning").isNone = true
  · rw [if_pos h3]
    refine iff_of_false (by simp) ?_
    rintro ⟨rfl, hc⟩
    exact ((responseMeetsContract_true_iff _).mp hc).2.2.1 h3
  rw [if_neg h3]
  by_cases h4 : (jLookup f "risk_level").isNone = true
  · rw [if_pos h4]
    refine iff_of_false (by simp) ?_
    rintro ⟨rfl, hc⟩
    exact ((responseMeetsContract_true_iff _).mp hc).2.2.2.1 h4
  rw [if_neg h4]
  by_cases h5 : (jIsStr (jLookup f "decision") "BOX" = true ∨
      jIsStr (jLookup f "decision") "STAY_OUT" = true)
  case neg =>
    rw [if_pos h5]
    refine iff_of_false (by simp) ?_
    rintro ⟨rfl, hc⟩
    exact h5 ((responseMeetsContract_true_iff _).mp hc).2.2.2.2.1
  rw [if_neg (not_not_intro h5)]
  by_cases h6 : confInRange (jLookup f "confidence") = true
  case neg =>
    rw [if_pos h6]
    refine iff_of_false (by simp) ?_
    rintro ⟨rfl, hc⟩
    exact h6 ((responseMeetsContract_true_iff _).mp hc).2.2.2.2.2.1
  rw [if_neg (not_not_intro h6)]
  by_cases h7 : (jIsStr (jLookup f "risk_level") "LOW" = true ∨
      jIsStr (jLookup f "risk_level") "MEDIUM" = true ∨
      jIsStr (jLookup f "risk_level") "HIGH" = true)
  case neg =>
    rw [if_pos h7]
    refine iff_of_false (by simp) ?_
    rintro ⟨rfl, hc⟩
    exact h7 ((responseMeetsContract_true_iff _).mp hc).2.2.2.2.2.2
  rw [if_neg (not_not_intro h7)]
  constructor
  · intro h
    have hg : f = g := Except.ok.inj h
    subst hg
    exact ⟨rfl, (responseMeetsContract_true_iff f).mpr ⟨h1, h2, h3, h4, h5, h6, h7⟩⟩
  · rintro ⟨rfl, _⟩
    rfl

/-- C8: `parse_llm_response` raises exactly when the response had no
parseable JSON object, the JSON was invalid, or the decoded object misses
one of decision/confidence/reasoning/risk_level, has a decision outside
the two-value set, a confidence outside [0,1], or a risk level outside the
three-value set; otherwise it returns the parsed object unchanged, never
substituting a default. -/
theorem C8_parse_llm_response_contract (o : ExtractOutcome) :
    (∀ fields, parse_llm_response o = .ok fields ↔
      (o = .parsedObj fields ∧ responseMeetsContract fields = true)) ∧
    ((∃ e, parse_llm_response o = .error e) ↔
      ¬ ∃ fields, o = .parsedObj fields ∧ responseMeetsContract fields = true) := by
  cases o with
  | noJsonFound t =>
      refine ⟨fun fields => iff_of_false (by simp [parse_llm_response]) (by simp), ?_⟩
      refine iff_of_true ⟨_, rfl⟩ ?_
      rintro ⟨fields, h, _⟩
      exact absurd h (by simp)
  | invalidJson m =>
      refine ⟨fun fields => iff_of_false (by simp [parse_llm_response]) (by simp), ?_⟩
      refine iff_of_true ⟨_, rfl⟩ ?_
      rintro ⟨fields, h, _⟩
      exact absurd h (by simp)
  | parsedObj f =>
      refine ⟨?_, ?_⟩
      · intro fields
        rw [parse_ok_iff]
        constructor
        · rintro ⟨rfl, hc⟩
          exact ⟨rfl, hc⟩
        · rintro ⟨hf, hc⟩
          have : f = fields := by
            injection hf
          subst this
          exact ⟨rfl, hc⟩
      · by_cases hc : responseMeetsContract f = true
        · have hok : parse_llm_response (.parsedObj f) = .ok f :=
            (parse_ok_iff f f).mpr ⟨rfl, hc⟩
          refine iff_of_false ?_ ?_
          · rintro ⟨e, he⟩
            rw [hok] at he
            exact absurd he (by simp)
          · intro hno
            exact hno ⟨f, rfl, hc⟩
        · refine iff_of_true ?_ ?_
          · cases hp : parse_llm_response (.parsedObj f) with
            | ok g =>
                have := (parse_ok_iff f g).mp hp
                exact absurd this.2 hc
            | error e => exact ⟨e, rfl⟩
          · rintro ⟨fields, hf, hcf⟩
            have : f = fields := by
              injection hf
            subst this
            exact hc hcf

/-- C8 witness: a well-formed response object is returned unchanged, and a
response with no JSON errors out. -/
theorem C8_parse_llm_response_contract_witness :
    parse_llm_response (.parsedObj
        [("decision", .str "BOX"), ("confidence", .num (85 / 100)),
         ("reasoning", .str "tires past optimal window"),
         ("risk_level", .str "MEDIUM")]) =
      .ok [("decision", .str "BOX"), ("confidence", .num (85 / 100)),
         ("reasoning", .str "tires past optimal window"),
         ("risk_level", .str "MEDIUM")] ∧
    (∃ e, parse_llm_response (.noJsonFound "I recommend boxing now.") = .error e) := by
  constructor
  · refine ((C8_parse_llm_response_contract _).1 _).mpr ⟨rfl, ?_⟩
    simp [responseMeetsContract, jLookup, jIsStr, confInRange, confValue]
    norm_num
  · exact ((C8_parse_llm_response_contract _).2).mpr (by rintro ⟨fields, h, _⟩; exact absurd h (by simp))
